import Mathlib

/-!
Shallow embedding of `src/index.cjs` of qertis/telegram-bot-express.

The JavaScript source is modelled as executable Lean definitions:
objects become structures with `Option` fields (a missing property is
`none`), JS exceptions (`throw`, `TypeError` on property access of
`undefined`) become `Except JsError`, and the external collaborators
(the regular-expression engine, the `bot.getFile` network call) become
function parameters, since they live outside this repository.
-/

namespace TelegramBotExpress

/-- Failures a code path of `src/index.cjs` can raise: the explicit
`throw new Error("Unknown Telegram Body")` of `getMessageFromBody`
(line 29), and the implicit JS `TypeError` raised when a property is
read off `undefined`. -/
inductive JsError where
  | unknownBody
  | typeError
deriving Repr, DecidableEq

/-- Error message text carried by a `JsError`, as used when the error is
funnelled into the `"error"` event channel. -/
def JsError.message : JsError → String
  | JsError.unknownBody => "Unknown Telegram Body"
  | JsError.typeError => "TypeError"

/-- JS truthiness of an optional string property: `undefined` and the
empty string are falsy, every other string is truthy. -/
def truthyStr : Option String → Bool
  | none => false
  | some s => s ≠ ""

/-- JS comparison `x > 0` on an optional numeric property: comparing
`undefined` yields `false` (NaN comparison), otherwise the numeric test. -/
def positiveSize : Option Int → Bool
  | none => false
  | some n => 0 < n

/-- Telegram user object (`from`, `forward_from`, contact owner). A JS
object without `is_bot` reads as falsy, so `is_bot` defaults to `false`. -/
structure User where
  id : Int
  is_bot : Bool := false
deriving Repr, DecidableEq

/-- Telegram shared-contact object; `user_id` may be absent. -/
structure Contact where
  user_id : Option Int := none
deriving Repr, DecidableEq

/-- Telegram chat object. -/
structure Chat where
  id : Int
  type : String := "private"
deriving Repr, DecidableEq

/-- Telegram message entity (only its `type` is inspected, lines 76-80). -/
structure Entity where
  type : String
deriving Repr, DecidableEq

/-- Resolved file record built by `getTelegramFile` (lines 321-327):
keys `file_path` and `url`. -/
structure TgFile where
  file_path : String
  url : String
deriving Repr, DecidableEq

/-- Thumbnail sub-object of a media block: has its own `file_id` and
receives a `file` key on enrichment. -/
structure Thumb where
  file_id : Option String := none
  file : Option TgFile := none
deriving Repr, DecidableEq

/-- Media block (`voice`, `document`, `video`, `audio`, `video_note`):
`file_id`, an optional `thumb` / `thumbnail` sub-object, and the `file`
key added by `extendMessage`. -/
structure MediaBlock where
  file_id : Option String := none
  file : Option TgFile := none
  thumb : Option Thumb := none
  thumbnail : Option Thumb := none
deriving Repr, DecidableEq

/-- One element of the `photo` size-variant array (lines 296-307). -/
structure PhotoSize where
  file_id : Option String := none
  file_size : Option Int := none
  file : Option TgFile := none
deriving Repr, DecidableEq

/-- Telegram message object, restricted to the properties `src/index.cjs`
reads. `from_` models the JS property `from` (a Lean keyword). `type` is
the tag injected into the message by `api()` (line 343). -/
structure Message where
  chat : Option Chat := none
  from_ : Option User := none
  text : Option String := none
  type : Option String := none
  contact : Option Contact := none
  reply_to_message : Option Unit := none
  entities : Option (List Entity) := none
  forward_from : Option User := none
  forward_from_chat : Option Chat := none
  voice : Option MediaBlock := none
  document : Option MediaBlock := none
  video : Option MediaBlock := none
  audio : Option MediaBlock := none
  video_note : Option MediaBlock := none
  photo : Option (List PhotoSize) := none
deriving Repr, DecidableEq

/-- Event metadata handed to the `message` listener by the telegram bot
library; only `metadata.type` is read (line 49). -/
structure Metadata where
  type : String
deriving Repr, DecidableEq

/-- Callback-query envelope (lines 238-251): `id`, `data`, and the
embedded `message`. -/
structure CallbackQuery where
  id : Option String := none
  data : Option String := none
  message : Option Message := none
deriving Repr, DecidableEq

/-- Inline-query object (lines 252-262): only `chat_type` is read. -/
structure InlineQuery where
  chat_type : Option String := none
deriving Repr, DecidableEq

/-- Raw webhook body: the five variant keys of a Telegram update. The
source only ever reads the first four (lines 16-30); `inline_query` is
carried so that its (non-)treatment can be stated. -/
structure Body where
  message : Option Message := none
  edited_message : Option Message := none
  channel_post : Option Message := none
  callback_query : Option CallbackQuery := none
  inline_query : Option InlineQuery := none
deriving Repr, DecidableEq

/-- Result record of `getMessageFromBody` (lines 34-39). -/
structure NormalizedUpdate where
  type : String
  message : Message
  chatId : String
  userId : String
deriving Repr, DecidableEq

/-- JS `String(x?.id)`: stringifying `undefined` gives the literal string
`"undefined"` (line 32-33 footgun noted in the spec). -/
def jsStringOfId : Option Int → String
  | some i => toString i
  | none => "undefined"

/-- Builds the `NormalizedUpdate` record of lines 32-39 for a given kind
tag and message object. -/
def normFrom (type : String) (m : Message) : NormalizedUpdate :=
  { type := type
    message := m
    chatId := jsStringOfId (m.chat.map Chat.id)
    userId := jsStringOfId (m.from_.map User.id) }

/-- Model of `getMessageFromBody` (lines 13-40): the if/else-if chain over
`message`, `edited_message`, `channel_post`, `callback_query`; any other
body throws `"Unknown Telegram Body"`. For the `callback_query` variant
the message is taken from the embedded `callback_query.message`; when that
is absent, line 32 (`message.chat`) raises a `TypeError`. -/
def getMessageFromBody (body : Body) : Except JsError NormalizedUpdate :=
  match body.message with
  | some m => Except.ok (normFrom "message" m)
  | none =>
  match body.edited_message with
  | some m => Except.ok (normFrom "edited_message" m)
  | none =>
  match body.channel_post with
  | some m => Except.ok (normFrom "channel_post" m)
  | none =>
  match body.callback_query with
  | some q =>
    (match q.message with
     | some m => Except.ok (normFrom "callback_query" m)
     | none => Except.error JsError.typeError)
  | none => Except.error JsError.unknownBody

/-- Index of the last `'/'` character in a character list, mirroring JS
`String.prototype.lastIndexOf("/")` (line 60); `none` when absent. -/
def charsLastSlash (l : List Char) : Option Nat :=
  ((List.range l.length).filter (fun i => l.get? i = some '/')).getLast?

/-- Splits a serialized-pattern key into pattern body and flags, as done
on lines 60-61: body is `str.slice(1, lastSlash)`, flags are
`str.slice(lastSlash + 1)`. The `none` branch is unreachable for keys
that start with `"/"`. -/
def restoreSource (str : String) : String × String :=
  match charsLastSlash str.toList with
  | some j =>
    (String.mk ((str.toList.drop 1).take (j - 1)), String.mk (str.toList.drop (j + 1)))
  | none => ("", "")

/-- JS coercion applied by `RegExp.prototype.exec` to its argument
(line 63): a missing `message.text` is coerced to the string
`"undefined"`. -/
def jsTextOf (m : Message) : String :=
  match m.text with
  | some t => t
  | none => "undefined"

/-- The pattern-rule scan of lines 58-67: walk the registered event keys
in registration order; a key starting with `"/"` is re-parsed into a
pattern and flags and run against the message text by the external
regular-expression engine `rmatch`; the first key whose pattern matches
is returned. -/
def findPatternEvent (rmatch : String → String → String → Bool) (text : String) :
    List String → Option String
  | [] => none
  | str :: rest =>
    if str.toList.head? = some '/' then
      if rmatch (restoreSource str).1 (restoreSource str).2 text then some str
      else findPatternEvent rmatch text rest
    else findPatternEvent rmatch text rest

/-- Model of `getEventName` (lines 48-89). The `"contact"` case reads
`message.from.is_bot` (a `TypeError` when `from` is absent) and, when the
sender is not a bot, `message.contact.user_id` (a `TypeError` when
`contact` is absent; the `&&` short-circuits when `is_bot` is true). The
`"text"` case first scans pattern keys, then falls back to the structural
rules of lines 68-82, then to `metadata.type`. Every other metadata type
is returned unchanged. `rmatch` is the external regex engine. -/
def getEventName (rmatch : String → String → String → Bool) (message : Message)
    (metadata : Metadata) (eventsList : List String) : Except JsError String :=
  if metadata.type = "contact" then
    match message.from_ with
    | none => Except.error JsError.typeError
    | some u =>
      if u.is_bot then Except.ok "contact"
      else
        match message.contact with
        | none => Except.error JsError.typeError
        | some c =>
          if c.user_id = some u.id then Except.ok "auth_by_contact"
          else Except.ok "contact"
  else if metadata.type = "text" then
    match findPatternEvent rmatch (jsTextOf message) eventsList with
    | some str => Except.ok str
    | none =>
      if message.type = some "edited_message" then Except.ok "edited_message_text"
      else if message.reply_to_message.isSome then Except.ok "reply_to_message"
      else
        match message.entities with
        | some entities =>
          if entities.any (fun e => e.type == "mention") then Except.ok "mention"
          else if entities.any (fun e => e.type == "bot_command") then Except.ok "bot_command"
          else Except.ok metadata.type
        | none => Except.ok metadata.type
  else Except.ok metadata.type

/-- Host constant of line 6. -/
def TELEGRAM_HOST : String := "api.telegram.org"

/-- Debounce quiet period of line 7, in milliseconds. -/
def FORWARD_TIME : Nat := 1000

/-- Model of `getTelegramFile` (lines 321-327). The external collaborator
`this.bot.getFile` is the parameter `gf`, mapping a (possibly `undefined`)
file id to the `file_path` of the returned file info; the URL composes the
well-known host, the bot token and the resolved path exactly as line 325
does. -/
def getTelegramFile (tok : String) (gf : Option String → String)
    (fileId : Option String) : TgFile :=
  { file_path := gf fileId
    url := "https://" ++ TELEGRAM_HOST ++ "/file/bot" ++ tok ++ "/" ++ gf fileId }

/-- Enrichment of a thumbless media block (`voice` lines 276-278, `audio`
lines 293-295): when `file_id` is truthy, the `file` key is set. -/
def resolvePlainBlock (tok : String) (gf : Option String → String) :
    Option MediaBlock → Option MediaBlock
  | none => none
  | some b =>
    if truthyStr b.file_id then
      some { b with file := some (getTelegramFile tok gf b.file_id) }
    else some b

/-- Enrichment of a media block with thumbnail handling (`document`
lines 279-285, `video` lines 286-292): when `file_id` is truthy the
`file` key is set, then `thumb || thumbnail` is selected; when the block
has a `thumbnail` but no `thumb`, the write `block.thumb.file = ...`
raises a `TypeError`. -/
def resolveThumbBlock (tok : String) (gf : Option String → String) :
    Option MediaBlock → Except JsError (Option MediaBlock)
  | none => Except.ok none
  | some b =>
    if truthyStr b.file_id then
      match b.thumb, b.thumbnail with
      | some t, _ =>
        Except.ok (some { b with
          file := some (getTelegramFile tok gf b.file_id)
          thumb := some { t with file := some (getTelegramFile tok gf t.file_id) } })
      | none, some _ => Except.error JsError.typeError
      | none, none =>
        Except.ok (some { b with file := some (getTelegramFile tok gf b.file_id) })
    else Except.ok (some b)

/-- Enrichment of `video_note` (lines 308-314): gated on the presence of
the block, not of a truthy `file_id`, then the same thumbnail handling as
`resolveThumbBlock`. -/
def resolveNoteBlock (tok : String) (gf : Option String → String) :
    Option MediaBlock → Except JsError (Option MediaBlock)
  | none => Except.ok none
  | some b =>
    match b.thumb, b.thumbnail with
    | some t, _ =>
      Except.ok (some { b with
        file := some (getTelegramFile tok gf b.file_id)
        thumb := some { t with file := some (getTelegramFile tok gf t.file_id) } })
    | none, some _ => Except.error JsError.typeError
    | none, none =>
      Except.ok (some { b with file := some (getTelegramFile tok gf b.file_id) })

/-- Enrichment of one photo size variant (lines 298-305): a variant with a
positive `file_size` and a truthy `file_id` gets a copy carrying the
`file` key; any other variant is returned unchanged. -/
def resolvePhotoSize (tok : String) (gf : Option String → String)
    (photo : PhotoSize) : PhotoSize :=
  if positiveSize photo.file_size && truthyStr photo.file_id then
    { photo with file := some (getTelegramFile tok gf photo.file_id) }
  else photo

/-- Enrichment of the photo array (lines 296-307): `Promise.all` over
`map` preserves the array's order, so it is a plain `List.map`; a missing
or non-array `photo` is skipped. -/
def resolvePhoto (tok : String) (gf : Option String → String) :
    Option (List PhotoSize) → Option (List PhotoSize)
  | none => none
  | some photos => some (photos.map (resolvePhotoSize tok gf))

/-- Model of `extendMessage` (lines 275-316). The source mutates the
message field by field in the order voice, document, video, audio, photo,
video_note; only the document, video and video_note steps can throw, and
no step reads a field another step writes, so the sequential mutation is
expressed as one record update guarded by the three fallible steps in
their source order. -/
def extendMessage (tok : String) (gf : Option String → String)
    (message : Message) : Except JsError Message :=
  match resolveThumbBlock tok gf message.document with
  | Except.error e => Except.error e
  | Except.ok document =>
  match resolveThumbBlock tok gf message.video with
  | Except.error e => Except.error e
  | Except.ok video =>
  match resolveNoteBlock tok gf message.video_note with
  | Except.error e => Except.error e
  | Except.ok video_note =>
    Except.ok { message with
      voice := resolvePlainBlock tok gf message.voice
      document := document
      video := video
      audio := resolvePlainBlock tok gf message.audio
      photo := resolvePhoto tok gf message.photo
      video_note := video_note }

/-- A handler registry (`privateEvents` / `publicEvents`): an ordered list
of event keys paired with the outcome the caller-supplied handler produces
when invoked (`Except.error` models the handler throwing). -/
abbrev Registry := List (String × Except String Unit)

/-- Property lookup `registry[key]` on a registry object. -/
def regGet : Registry → String → Option (Except String Unit)
  | [], _ => none
  | (k, h) :: rest, key => if k = key then some h else regGet rest key

/-- What becomes of one handler invocation as observed at the listener
boundary. -/
inductive ListenerResult where
  | done
  | errorEmitted (e : String)
  | escaped (e : String)
deriving Repr, DecidableEq

/-- Handler invocation inside `try/catch` (lines 212-216, 222-226): a
throwing handler is caught and its error emitted on the `"error"`
channel. -/
def invokeCaught : Except String Unit → ListenerResult
  | Except.ok _ => ListenerResult.done
  | Except.error e => ListenerResult.errorEmitted e

/-- Handler invocation with no surrounding `try/catch` (lines 234-236,
238-251, 252-262): a throwing handler rejects the async listener and the
error escapes. -/
def invokeUncaught : Except String Unit → ListenerResult
  | Except.ok _ => ListenerResult.done
  | Except.error e => ListenerResult.escaped e

/-- Observable outcome of the `message` listener for one update. -/
inductive MsgResult where
  | aggregated
  | thrown (e : JsError)
  | dispatched (scope : String) (eventName : String) (r : ListenerResult)
  | unknownEvent (scope : String) (eventName : String)
deriving Repr, DecidableEq

/-- The ordinary dispatch path of the `message` listener (lines 208-231):
enrich the message (a failure here escapes, there is no `try` around
line 208), select the registry by `message.chat.type === "private"`
(reading `chat.type` of a missing chat raises), classify, look the
handler up, and invoke it inside the failure-isolating boundary. -/
def ordinaryDispatch (tok : String) (gf : Option String → String)
    (rmatch : String → String → String → Bool)
    (privateEvents publicEvents : Registry)
    (message : Message) (metadata : Metadata) : MsgResult :=
  match extendMessage tok gf message with
  | Except.error e => MsgResult.thrown e
  | Except.ok m =>
    match m.chat with
    | none => MsgResult.thrown JsError.typeError
    | some chat =>
      if chat.type = "private" then
        match getEventName rmatch m metadata (privateEvents.map Prod.fst) with
        | Except.error e => MsgResult.thrown e
        | Except.ok eventName =>
          match regGet privateEvents eventName with
          | some h => MsgResult.dispatched "private" eventName (invokeCaught h)
          | none => MsgResult.unknownEvent "private" eventName
      else
        match getEventName rmatch m metadata (publicEvents.map Prod.fst) with
        | Except.error e => MsgResult.thrown e
        | Except.ok eventName =>
          match regGet publicEvents eventName with
          | some h => MsgResult.dispatched "public" eventName (invokeCaught h)
          | none => MsgResult.unknownEvent "public" eventName

/-- One pending forward batch of `transactionMessages`: the accumulated
messages and the handle of the pending deferred flush (lines 200-203). -/
structure Transaction where
  messages : List Message
  timeoutId : Option Nat
deriving Repr, DecidableEq

/-- The per-chat batch table `transactionMessages` (line 165), a JS `Map`
keyed by the numeric chat id. -/
abbrev Table := List (Int × Transaction)

/-- `transactionMessages.get(key)` / `.has(key)`. -/
def tableGet : Table → Int → Option Transaction
  | [], _ => none
  | (k, v) :: rest, key => if k = key then some v else tableGet rest key

/-- `transactionMessages.set(key, value)`: replace the entry for `key`,
or add one. -/
def tableSet : Table → Int → Transaction → Table
  | [], key, value => [(key, value)]
  | (k, v) :: rest, key, value =>
    if k = key then (key, value) :: rest else (k, v) :: tableSet rest key value

/-- `transactionMessages.delete(key)`. -/
def tableDelete (tbl : Table) (key : Int) : Table :=
  tbl.filter (fun p => p.1 ≠ key)

/-- The arrival half of the Forward Aggregator (lines 170-203): look the
chat's transaction up, supersede its pending flush (`clearTimeout`), push
the message onto its sequence (an absent entry starts from `[]`), and
store the sequence together with the freshly scheduled flush handle
`newTimeoutId`. -/
def aggregateForward (tbl : Table) (key : Int) (message : Message)
    (newTimeoutId : Nat) : Table :=
  let messages :=
    match tableGet tbl key with
    | some transaction => transaction.messages
    | none => []
  tableSet tbl key { messages := messages ++ [message], timeoutId := some newTimeoutId }

/-- The read the flush callback performs before its first suspension point
(lines 181-182): the accumulated messages of the chat's entry, `none` when
the entry is gone. The table is not modified here. -/
def flushRead (tbl : Table) (key : Int) : Option (List Message) :=
  (tableGet tbl key).map Transaction.messages

/-- The `finally` clause of the flush callback (line 196):
`transactionMessages.delete(key)`, executed after the resolver and
handler steps. -/
def flushCleanup (tbl : Table) (key : Int) : Table :=
  tableDelete tbl key

/-- Interleaving of a flush with a racing self-forward arrival: the flush
callback fires and reads the entry (lines 181-182), suspends at
`await Promise.all` (line 187), the `message` listener runs the arrival
(lines 170-203), then the flush resumes and its `finally` clause deletes
the entry (line 196). Returns the batch the flush processes, the table as
the arrival left it, and the table after the flush's cleanup. -/
def flushWithConcurrentForward (tbl : Table) (key : Int) (message : Message)
    (newTimeoutId : Nat) : Option (List Message) × Table × Table :=
  let batch := flushRead tbl key
  let tblAtArrival := aggregateForward tbl key message newTimeoutId
  (batch, tblAtArrival, flushCleanup tblAtArrival key)

/-- The `try/catch` body of the flush callback (lines 186-195): resolve
every accumulated message through `extendMessage`, then invoke the
private `message_forwards` handler when registered; any failure of either
step is caught and emitted on the `"error"` channel. -/
def flushInvoke (tok : String) (gf : Option String → String)
    (privateEvents : Registry) (messages : List Message) : ListenerResult :=
  match messages.mapM (extendMessage tok gf) with
  | Except.error e => ListenerResult.errorEmitted e.message
  | Except.ok _ =>
    match regGet privateEvents "message_forwards" with
    | some h => invokeCaught h
    | none => ListenerResult.done

/-- The `message` listener (lines 167-232): a message with a forward
marker whose `chat.id` equals `from.id` is handed to the Forward
Aggregator and the listener returns early; reading `chat.id` or `from.id`
off a missing object raises; everything else takes the ordinary dispatch
path and leaves `transactionMessages` untouched. -/
def messageListener (tok : String) (gf : Option String → String)
    (rmatch : String → String → String → Bool)
    (privateEvents publicEvents : Registry)
    (tbl : Table) (message : Message) (metadata : Metadata)
    (newTimeoutId : Nat) : Table × MsgResult :=
  if message.forward_from.isSome || message.forward_from_chat.isSome then
    match message.chat with
    | none => (tbl, MsgResult.thrown JsError.typeError)
    | some chat =>
      match message.from_ with
      | none => (tbl, MsgResult.thrown JsError.typeError)
      | some u =>
        if chat.id = u.id then
          (aggregateForward tbl chat.id message newTimeoutId, MsgResult.aggregated)
        else
          (tbl, ordinaryDispatch tok gf rmatch privateEvents publicEvents message metadata)
  else (tbl, ordinaryDispatch tok gf rmatch privateEvents publicEvents message metadata)

/-- The `channel_post` listener (lines 233-237): invoke the public
`channel_post` handler with no `try/catch`. -/
def channelPostListener (publicEvents : Registry) : ListenerResult :=
  match regGet publicEvents "channel_post" with
  | some h => invokeUncaught h
  | none => ListenerResult.done

/-- The `callback_query` listener (lines 238-251): look `query.data` up in
the public registry and invoke, then in the private registry and invoke;
no `try/catch`, so a rejection of the first `await` aborts the listener
before the private lookup runs. -/
def callbackQueryListener (privateEvents publicEvents : Registry)
    (data : String) : ListenerResult :=
  match regGet publicEvents data with
  | some h =>
    (match invokeUncaught h with
     | ListenerResult.escaped e => ListenerResult.escaped e
     | _ =>
       match regGet privateEvents data with
       | some h2 => invokeUncaught h2
       | none => ListenerResult.done)
  | none =>
    match regGet privateEvents data with
    | some h2 => invokeUncaught h2
    | none => ListenerResult.done

/-- The sequence of handler invocations the `callback_query` listener
performs (lines 238-251), in order: the public handler when registered
(recorded even when it throws, since its code runs), then — only when the
public handler did not throw — the private handler when registered. -/
def callbackQueryInvocations (privateEvents publicEvents : Registry)
    (data : String) : List String :=
  match regGet publicEvents data with
  | some h =>
    "public" ::
      (match h with
       | Except.error _ => []
       | Except.ok _ =>
         match regGet privateEvents data with
         | some _ => ["private"]
         | none => [])
  | none =>
    match regGet privateEvents data with
    | some _ => ["private"]
    | none => []

/-- The `inline_query` listener (lines 252-262): route by `chat_type`,
invoke with no `try/catch`. -/
def inlineQueryListener (privateEvents publicEvents : Registry)
    (chat_type : Option String) : ListenerResult :=
  if chat_type = some "private" || chat_type = some "sender" then
    match regGet privateEvents "inline_query" with
    | some h => invokeUncaught h
    | none => ListenerResult.done
  else if chat_type = some "group" || chat_type = some "supergroup" then
    match regGet publicEvents "inline_query" with
    | some h => invokeUncaught h
    | none => ListenerResult.done
  else ListenerResult.done

/-- Scheduler helper: removes the element with the smallest time (its
time given by `time`; the first one among equals) from a pending-event
list, returning it together with the remaining list. -/
def popMinBy {α : Type} (time : α → Nat) : List α → Option (α × List α)
  | [] => none
  | x :: xs =>
    match popMinBy time xs with
    | none => some (x, [])
    | some (y, ys) => if time x ≤ time y then some (x, xs) else some (y, x :: ys)

/-- The `clearTimeout` calls of lines 174-176 and 183-185: a cleared
timeout handle never fires, so its pending timer is dropped. -/
def clearTimer (timers : List (Nat × Nat)) (tid : Option Nat) : List (Nat × Nat) :=
  match tid with
  | some id => timers.filter (fun p => p.2 ≠ id)
  | none => timers

/-- Timed event-loop state of one chat's debounced aggregation
(`transactionMessages` is keyed by chat id and the listener only ever
touches the entry of the arriving message's chat, so chats evolve
independently; this state is that one entry's world).
`entry` is `transactionMessages.get(key)`; `timers` are the pending,
uncleared `setTimeout` callbacks as (fire time = creation time +
`FORWARD_TIME`, handle) (line 199); `flights` are flushes that have
passed the synchronous prefix of the callback (lines 181-187: the `has`
check, the read, the `clearTimeout`, the `map` that snapshots the batch)
and are suspended at the `await`s of lines 187/191, recorded by the time
their `finally` clause (line 196) will delete the entry; `flushed` are
the emitted batches as (flush begin time, snapshot taken by line 187's
`map`). -/
structure AggState where
  entry : Option Transaction
  timers : List (Nat × Nat)
  flights : List Nat
  flushed : List (Nat × List Message)
deriving Repr, DecidableEq

/-- The empty aggregation world: no entry, no pending timers, no flush in
flight, nothing flushed. -/
def AggState.init : AggState := ⟨none, [], [], []⟩

/-- The next event the event loop processes: the earliest among the
pending flush completions, the pending timer fires, and the remaining
arrivals. On equal times, completions run before timer callbacks and
timer callbacks before arrivals (the runtime leaves same-tick ordering
unspecified; the theorems below only use schedules without ties). -/
inductive NextEvent where
  | idle
  | completion (restF : List Nat)
  | timerFire (tt : Nat) (restT : List (Nat × Nat))
  | arrival (t : Nat) (m : Message) (tid : Nat) (rest : List (Nat × Message × Nat))
deriving Repr

/-- Selects the next event (see `NextEvent`). Arrivals carry the fresh
`setTimeout` handle that line 180 would allocate for them. -/
def nextEvent (arrivals : List (Nat × Message × Nat)) (st : AggState) : NextEvent :=
  match popMinBy id st.flights, popMinBy Prod.fst st.timers, arrivals with
  | some (tc, restF), some ((tt, _), restT), (ta, m, aid) :: rest =>
    if tc ≤ tt then
      if tc ≤ ta then NextEvent.completion restF
      else NextEvent.arrival ta m aid rest
    else
      if tt ≤ ta then NextEvent.timerFire tt restT
      else NextEvent.arrival ta m aid rest
  | some (tc, restF), some ((tt, _), restT), [] =>
    if tc ≤ tt then NextEvent.completion restF else NextEvent.timerFire tt restT
  | some (tc, restF), none, (ta, m, aid) :: rest =>
    if tc ≤ ta then NextEvent.completion restF else NextEvent.arrival ta m aid rest
  | some (_, restF), none, [] => NextEvent.completion restF
  | none, some ((tt, _), restT), (ta, m, aid) :: rest =>
    if tt ≤ ta then NextEvent.timerFire tt restT else NextEvent.arrival ta m aid rest
  | none, some ((tt, _), restT), [] => NextEvent.timerFire tt restT
  | none, none, (ta, m, aid) :: rest => NextEvent.arrival ta m aid rest
  | none, none, [] => NextEvent.idle

/-- One turn of the event loop over the aggregator of lines 167-206:
a flush completion runs the `finally` clause (line 196), deleting the
entry unconditionally; a timer fire runs the flush callback — when the
entry exists (line 181) it clears the entry's current timeout handle
(lines 183-185), snapshots the entry's messages (line 187's `map`),
schedules its deletion one flush duration `dur` later (the latency of the
resolver `await` on line 187 and the handler `await` on line 191), and
emits the snapshot; when the entry is gone the callback does nothing; an
arrival runs lines 170-203 synchronously — append to the existing entry
after clearing its pending flush, or start a fresh entry, and schedule a
new deferred flush `FORWARD_TIME` later. Returns `none` when no event is
pending. -/
def aggStep (dur : Nat) (arrivals : List (Nat × Message × Nat)) (st : AggState) :
    Option (List (Nat × Message × Nat) × AggState) :=
  match nextEvent arrivals st with
  | NextEvent.idle => none
  | NextEvent.completion restF =>
    some (arrivals, { st with entry := none, flights := restF })
  | NextEvent.timerFire tt restT =>
    match st.entry with
    | some tr =>
      some (arrivals,
        { st with
          timers := clearTimer restT tr.timeoutId
          flights := (tt + dur) :: st.flights
          flushed := st.flushed ++ [(tt, tr.messages)] })
    | none => some (arrivals, { st with timers := restT })
  | NextEvent.arrival t m tid rest =>
    match st.entry with
    | some tr =>
      some (rest,
        { st with
          entry := some ⟨tr.messages ++ [m], some tid⟩
          timers := (t + FORWARD_TIME, tid) :: clearTimer st.timers tr.timeoutId })
    | none =>
      some (rest,
        { st with
          entry := some ⟨[m], some tid⟩
          timers := (t + FORWARD_TIME, tid) :: st.timers })

/-- Iterates `aggStep` up to `fuel` turns, stopping when the event loop is
idle. The theorems below always pair a run with an `aggStep … = none`
fact for its final state, showing the run is complete, so the fuel value
is demonstrably sufficient. -/
def aggRun (dur : Nat) (fuel : Nat) (arrivals : List (Nat × Message × Nat))
    (st : AggState) : List (Nat × Message × Nat) × AggState :=
  match fuel with
  | 0 => (arrivals, st)
  | fuel + 1 =>
    match aggStep dur arrivals st with
    | some (arrivals', st') => aggRun dur fuel arrivals' st'
    | none => (arrivals, st)

/-- Concrete message: a self-forward into chat 5 carrying text "a". -/
def mA : Message :=
  { chat := some { id := 5 }
    from_ := some { id := 5 }
    forward_from := some { id := 7 }
    text := some "a" }

/-- Concrete message: a self-forward into chat 5 carrying text "b". -/
def mB : Message :=
  { chat := some { id := 5 }
    from_ := some { id := 5 }
    forward_from := some { id := 8 }
    text := some "b" }

/-! ### Helper lemmas -/

theorem invokeCaught_ne_escaped (h : Except String Unit) (e : String) :
    invokeCaught h ≠ ListenerResult.escaped e := by
  cases h <;> simp [invokeCaught]

theorem tableGet_tableSet_self (tbl : Table) (key : Int) (v : Transaction) :
    tableGet (tableSet tbl key v) key = some v := by
  induction tbl with
  | nil => simp [tableSet, tableGet]
  | cons p rest ih =>
    obtain ⟨k, w⟩ := p
    by_cases hk : k = key
    · simp [tableSet, hk, tableGet]
    · simp [tableSet, hk, tableGet, ih]

theorem tableGet_tableDelete_self (tbl : Table) (key : Int) :
    tableGet (tableDelete tbl key) key = none := by
  induction tbl with
  | nil => rfl
  | cons p rest ih =>
    obtain ⟨k, w⟩ := p
    by_cases hk : k = key
    · simpa [tableDelete, List.filter, hk] using ih
    · simpa [tableDelete, List.filter, hk, tableGet] using ih

/-! ### C5 — Update Normalizer variants -/

/-- C5 (counterexample): a raw update carrying only the recognized variant
key `inline_query` does not normalize successfully — `getMessageFromBody`
has no `inline_query` branch and throws `Unknown Telegram Body` —
refuting the claim that every payload with exactly one of the five
recognized variant keys normalizes to that variant's kind tag. -/
theorem getMessageFromBody_inline_query_counterexample :
    (({ inline_query := some {} } : Body).inline_query).isSome = true ∧
    getMessageFromBody { inline_query := some {} } = Except.error JsError.unknownBody :=
  ⟨rfl, rfl⟩

/-- C5 (amended): the normalizer recognizes only four variant keys. A
payload with none of `message`, `edited_message`, `channel_post`,
`callback_query` fails with the unknown-body error even when
`inline_query` is present; a payload whose first populated key among the
four (in source order) is a given variant normalizes to that variant's
kind tag, where the `callback_query` variant additionally requires the
embedded message object. -/
theorem getMessageFromBody_four_variants (b : Body) :
    (b.message = none → b.edited_message = none → b.channel_post = none →
      b.callback_query = none →
      getMessageFromBody b = Except.error JsError.unknownBody) ∧
    (∀ m, b.message = some m →
      getMessageFromBody b = Except.ok (normFrom "message" m)) ∧
    (∀ m, b.message = none → b.edited_message = some m →
      getMessageFromBody b = Except.ok (normFrom "edited_message" m)) ∧
    (∀ m, b.message = none → b.edited_message = none → b.channel_post = some m →
      getMessageFromBody b = Except.ok (normFrom "channel_post" m)) ∧
    (∀ q m, b.message = none → b.edited_message = none → b.channel_post = none →
      b.callback_query = some q → q.message = some m →
      getMessageFromBody b = Except.ok (normFrom "callback_query" m)) := by
  refine ⟨?_, ?_, ?_, ?_, ?_⟩ <;> intros <;> simp_all [getMessageFromBody]

/-- C5 (witness): the amended statement applied to two concrete payloads:
an inline-query-only body fails, a channel-post body succeeds with the
`channel_post` tag. -/
theorem getMessageFromBody_four_variants_witness :
    getMessageFromBody { inline_query := some {} } = Except.error JsError.unknownBody ∧
    getMessageFromBody { channel_post := some mA } = Except.ok (normFrom "channel_post" mA) :=
  ⟨(getMessageFromBody_four_variants { inline_query := some {} }).1 rfl rfl rfl rfl,
   (getMessageFromBody_four_variants { channel_post := some mA }).2.2.2.1 mA rfl rfl rfl⟩

/-! ### C4 — pattern rules dominate structural fallback -/

/-- C4: for a text message, when the scan over the registered event keys
finds a first serialized-pattern key whose restored pattern matches the
message text, `getEventName` returns exactly that key — whatever the
structural fields (`type`, `reply_to_message`, `entities`) of the message
are, so pattern rules strictly dominate the structural fallback rules. -/
theorem patternRulesDominate (rmatch : String → String → String → Bool)
    (m : Message) (md : Metadata) (evs : List String) (k : String)
    (h1 : md.type = "text")
    (h2 : findPatternEvent rmatch (jsTextOf m) evs = some k) :
    getEventName rmatch m md evs = Except.ok k := by
  unfold getEventName
  rw [h1]
  simp [h2]

/-- C4 (witness): a concrete text message that is also a reply (a
structural fallback condition) still classifies as the matching pattern
key `"/ping/"`. -/
theorem patternRulesDominate_witness :
    getEventName (fun p _ t => p == "ping" && t == "ping")
      { text := some "ping", reply_to_message := some () } ⟨"text"⟩ ["/ping/"]
      = Except.ok "/ping/" :=
  patternRulesDominate _ _ _ _ _ rfl (by decide)

/-! ### C6 — classifier totality -/

/-- C6 (counterexample): the classifier is not total — on a shared-contact
message whose sender object is absent, line 51 reads
`message.from.is_bot` and raises a `TypeError`, exactly the case the
claim says cannot crash. -/
theorem classifierContactCrash_counterexample :
    getEventName (fun _ _ _ => false) { contact := some { user_id := some 1 } }
      ⟨"contact"⟩ [] = Except.error JsError.typeError := rfl

/-- C6 (amended): for every update-kind tag other than `"contact"` the
classifier returns exactly one event name without raising, and for every
tag other than `"contact"` and `"text"` that name is the raw update-kind
tag itself; only the contact case can raise (when the sender object, or —
for a non-bot sender — the contact object, is absent). -/
theorem classifierTotalExceptContact (rmatch : String → String → String → Bool)
    (m : Message) (md : Metadata) (evs : List String)
    (h : md.type ≠ "contact") :
    (∃ s, getEventName rmatch m md evs = Except.ok s) ∧
    (md.type ≠ "text" → getEventName rmatch m md evs = Except.ok md.type) := by
  refine ⟨?_, ?_⟩
  · unfold getEventName
    rw [if_neg h]
    by_cases ht : md.type = "text"
    · rw [if_pos ht]
      cases hfp : findPatternEvent rmatch (jsTextOf m) evs with
      | some s => exact ⟨s, rfl⟩
      | none =>
        by_cases h1 : m.type = some "edited_message"
        · exact ⟨"edited_message_text", by simp [h1]⟩
        · by_cases h2 : m.reply_to_message.isSome
          · exact ⟨"reply_to_message", by simp [h1, h2]⟩
          · cases hen : m.entities with
            | none => exact ⟨md.type, by simp [h1, h2, hen]⟩
            | some es =>
              by_cases h3 : es.any (fun e => e.type == "mention")
              · exact ⟨"mention", by simp [h1, h2, hen, h3]⟩
              · by_cases h4 : es.any (fun e => e.type == "bot_command")
                · exact ⟨"bot_command", by simp [h1, h2, hen, h3, h4]⟩
                · exact ⟨md.type, by simp [h1, h2, hen, h3, h4]⟩
    · rw [if_neg ht]
      exact ⟨md.type, rfl⟩
  · intro ht
    unfold getEventName
    rw [if_neg h, if_neg ht]

/-- C6 (witness): the amended statement at a concrete non-contact,
non-text update: a bare photo message classifies as the raw tag
`"photo"`. -/
theorem classifierTotalExceptContact_witness :
    (∃ s, getEventName (fun _ _ _ => false) {} ⟨"photo"⟩ [] = Except.ok s) ∧
    ((⟨"photo"⟩ : Metadata).type ≠ "text" →
      getEventName (fun _ _ _ => false) {} ⟨"photo"⟩ [] = Except.ok "photo") :=
  classifierTotalExceptContact (fun _ _ _ => false) {} ⟨"photo"⟩ [] (by decide)

/-! ### C2 — handler failure isolation -/

/-- C2 (counterexample): a handler error on the `channel_post` path is not
caught — lines 233-237 have no `try/catch` — so it escapes the listener
instead of being reported through the single error channel, refuting the
claim that every entry point isolates handler failures. -/
theorem handlerIsolation_counterexample :
    channelPostListener [("channel_post", Except.error "boom")] =
      ListenerResult.escaped "boom" := rfl

/-- C2 (amended): handler errors are caught and reported through the
single error channel only on the ordinary message path (lines 212-216,
222-226) and on the aggregator flush path (lines 186-195); on the
`channel_post`, `callback_query` and `inline_query` paths a handler error
escapes the listener uncaught. -/
theorem handlerIsolation_amended (tok : String) (gf : Option String → String)
    (rmatch : String → String → String → Bool)
    (privateEvents publicEvents : Registry)
    (m : Message) (md : Metadata) (msgs : List Message)
    (data : String) (ct : Option String) (s ev e : String) :
    (ordinaryDispatch tok gf rmatch privateEvents publicEvents m md ≠
      MsgResult.dispatched s ev (ListenerResult.escaped e)) ∧
    (flushInvoke tok gf privateEvents msgs ≠ ListenerResult.escaped e) ∧
    (channelPostListener publicEvents = ListenerResult.escaped e ↔
      regGet publicEvents "channel_post" = some (Except.error e)) ∧
    (regGet publicEvents data = some (Except.error e) →
      callbackQueryListener privateEvents publicEvents data = ListenerResult.escaped e) ∧
    ((ct = some "private" ∨ ct = some "sender") →
      regGet privateEvents "inline_query" = some (Except.error e) →
      inlineQueryListener privateEvents publicEvents ct = ListenerResult.escaped e) := by
  refine ⟨?_, ?_, ?_, ?_, ?_⟩
  · intro hcon
    unfold ordinaryDispatch at hcon
    repeat' split at hcon
    all_goals first
      | exact MsgResult.noConfusion hcon
      | (injection hcon with h1 h2 h3; exact invokeCaught_ne_escaped _ _ h3)
  · intro hcon
    unfold flushInvoke at hcon
    repeat' split at hcon
    all_goals first
      | exact ListenerResult.noConfusion hcon
      | exact invokeCaught_ne_escaped _ _ hcon
  · unfold channelPostListener
    cases hr : regGet publicEvents "channel_post" with
    | none => simp
    | some hnd => cases hnd <;> simp [invokeUncaught]
  · intro hd
    unfold callbackQueryListener
    rw [hd]
    simp [invokeUncaught]
  · intro hct hd
    unfold inlineQueryListener
    have hcond : (decide (ct = some "private") || decide (ct = some "sender")) = true := by
      rcases hct with h | h <;> simp [h]
    rw [if_pos hcond]
    rw [hd]
    rfl

/-- C2 (witness): the amended statement applied at concrete registries: a
throwing callback handler escapes the `callback_query` listener, and a
throwing inline handler escapes the `inline_query` listener for a
sender-scoped query. -/
theorem handlerIsolation_amended_witness :
    callbackQueryListener [] [("d", Except.error "z")] "d" = ListenerResult.escaped "z" ∧
    inlineQueryListener [("inline_query", Except.error "w")] [] (some "sender") =
      ListenerResult.escaped "w" :=
  ⟨(handlerIsolation_amended "T" (fun _ => "") (fun _ _ _ => false) [] [("d", Except.error "z")]
      {} ⟨"text"⟩ [] "d" none "s" "e" "z").2.2.2.1 rfl,
   (handlerIsolation_amended "T" (fun _ => "") (fun _ _ _ => false)
      [("inline_query", Except.error "w")] [] {} ⟨"text"⟩ [] "d" (some "sender")
      "s" "e" "w").2.2.2.2 (Or.inr rfl) rfl⟩

/-! ### C7 — callback query consults both registries -/

/-- C7 (counterexample): a callback data value registered in both
registries does not always invoke both handlers: when the public handler
throws, the listener (which has no `try/catch`) aborts before the private
lookup on line 245 runs, so only the public handler is invoked. -/
theorem callbackBothRegistries_counterexample :
    regGet [("d", Except.error "boom")] "d" = some (Except.error "boom") ∧
    regGet [("d", Except.ok ())] "d" = some (Except.ok ()) ∧
    callbackQueryInvocations [("d", Except.ok ())] [("d", Except.error "boom")] "d" =
      ["public"] :=
  ⟨rfl, rfl, rfl⟩

/-- C7 (amended): the two registries are consulted independently for a
callback query — a data value present in both invokes both handlers
(public first) provided the public handler does not throw; if it throws,
only the public handler is invoked; a data value present in only one
registry invokes only that handler. -/
theorem callbackBothRegistries_amended (privateEvents publicEvents : Registry)
    (data : String) :
    (∀ h, regGet publicEvents data = some (Except.ok ()) →
      regGet privateEvents data = some h →
      callbackQueryInvocations privateEvents publicEvents data = ["public", "private"]) ∧
    (∀ h, regGet publicEvents data = none → regGet privateEvents data = some h →
      callbackQueryInvocations privateEvents publicEvents data = ["private"]) ∧
    (∀ h, regGet publicEvents data = some h → regGet privateEvents data = none →
      callbackQueryInvocations privateEvents publicEvents data = ["public"]) ∧
    (∀ e h, regGet publicEvents data = some (Except.error e) →
      regGet privateEvents data = some h →
      callbackQueryInvocations privateEvents publicEvents data = ["public"]) := by
  refine ⟨?_, ?_, ?_, ?_⟩
  · intro h hpub hpriv
    simp [callbackQueryInvocations, hpub, hpriv]
  · intro h hpub hpriv
    simp [callbackQueryInvocations, hpub, hpriv]
  · intro h hpub hpriv
    cases h <;> simp [callbackQueryInvocations, hpub, hpriv]
  · intro e h hpub hpriv
    simp [callbackQueryInvocations, hpub, hpriv]

/-- C7 (witness): the amended statement at concrete registries where the
data value is present in both and the public handler completes: both
handlers are invoked, public first. -/
theorem callbackBothRegistries_amended_witness :
    callbackQueryInvocations [("d", Except.ok ())] [("d", Except.ok ())] "d" =
      ["public", "private"] :=
  (callbackBothRegistries_amended [("d", Except.ok ())] [("d", Except.ok ())] "d").1
    (Except.ok ()) rfl rfl

/-! ### C10 — non-self-forwards bypass the aggregator -/

/-- C10: a message without a forward marker, and a forward-marked message
whose chat id differs from its sender id, both bypass the Forward
Aggregator entirely: the listener leaves `transactionMessages` untouched
and runs the ordinary enrichment / classification / scope-selected
dispatch path. -/
theorem nonSelfForwardBypassesAggregator (tok : String)
    (gf : Option String → String) (rmatch : String → String → String → Bool)
    (privateEvents publicEvents : Registry) (tbl : Table)
    (m : Message) (md : Metadata) (tid : Nat)
    (h : (m.forward_from = none ∧ m.forward_from_chat = none) ∨
         (∃ c u, m.chat = some c ∧ m.from_ = some u ∧ c.id ≠ u.id)) :
    messageListener tok gf rmatch privateEvents publicEvents tbl m md tid =
      (tbl, ordinaryDispatch tok gf rmatch privateEvents publicEvents m md) := by
  rcases h with ⟨h1, h2⟩ | ⟨c, u, hc, hu, hne⟩
  · simp [messageListener, h1, h2]
  · by_cases hm : (m.forward_from.isSome || m.forward_from_chat.isSome) = true
    · unfold messageListener
      rw [if_pos hm, hc, hu]
      simp [hne]
    · unfold messageListener
      rw [if_neg hm]

/-- C10 (witness): the statement at a forwarded message whose chat id (5)
differs from its sender id (6), with an empty batch table. -/
theorem nonSelfForwardBypassesAggregator_witness :
    messageListener "T" (fun _ => "") (fun _ _ _ => false) [] [] []
      { chat := some { id := 5 }, from_ := some { id := 6 },
        forward_from := some { id := 7 } } ⟨"text"⟩ 0 =
      ([], ordinaryDispatch "T" (fun _ => "") (fun _ _ _ => false) [] []
        { chat := some { id := 5 }, from_ := some { id := 6 },
          forward_from := some { id := 7 } } ⟨"text"⟩) :=
  nonSelfForwardBypassesAggregator "T" (fun _ => "") (fun _ _ _ => false) [] [] [] _ ⟨"text"⟩ 0
    (Or.inr ⟨{ id := 5 }, { id := 6 }, rfl, rfl, by decide⟩)

/-! ### C1 — flush removes the batch entry only after processing -/

/-- C1 (counterexample): when the flush fires on the batch of chat 5, the
entry is still in the table during the resolver step — the deletion
happens in the `finally` clause (line 196) — so a self-forward arriving
during the flush is appended to the batch being flushed instead of
starting a fresh batch, and the `finally` deletion then removes the whole
entry, dropping the racing message. This refutes the claim that the entry
is removed before the resolver and handler steps. -/
theorem flushRemovesEntryFirst_counterexample :
    tableGet [(5, ⟨[mA], some 1⟩)] 5 = some ⟨[mA], some 1⟩ ∧
    flushWithConcurrentForward [(5, ⟨[mA], some 1⟩)] 5 mB 2 =
      (some [mA], [(5, ⟨[mA, mB], some 2⟩)], []) :=
  ⟨rfl, rfl⟩

/-- C1 (amended): when a deferred flush fires for a chat with a live
batch, the flush reads and processes the accumulated messages while the
entry is still in the table; a self-forward arriving during the flush's
resolver or handler step is appended to that same entry (it does not
start a fresh batch), and the flush's `finally` cleanup afterwards
deletes the entry — racing arrival included. -/
theorem flushCleanupAfterProcessing (tbl : Table) (key : Int) (tr : Transaction)
    (m : Message) (tid : Nat) (h : tableGet tbl key = some tr) :
    (flushWithConcurrentForward tbl key m tid).1 = some tr.messages ∧
    tableGet (flushWithConcurrentForward tbl key m tid).2.1 key =
      some ⟨tr.messages ++ [m], some tid⟩ ∧
    tableGet (flushWithConcurrentForward tbl key m tid).2.2 key = none := by
  refine ⟨?_, ?_, ?_⟩
  · simp [flushWithConcurrentForward, flushRead, h]
  · simp [flushWithConcurrentForward, aggregateForward, h, tableGet_tableSet_self]
  · simp [flushWithConcurrentForward, flushCleanup, tableGet_tableDelete_self]

/-- C1 (witness): the amended statement at the concrete table holding the
batch `[mA]` for chat 5 with a racing arrival `mB`. -/
theorem flushCleanupAfterProcessing_witness :
    (flushWithConcurrentForward [(5, ⟨[mA], some 1⟩)] 5 mB 2).1 = some [mA] ∧
    tableGet (flushWithConcurrentForward [(5, ⟨[mA], some 1⟩)] 5 mB 2).2.1 5 =
      some ⟨[mA] ++ [mB], some 2⟩ ∧
    tableGet (flushWithConcurrentForward [(5, ⟨[mA], some 1⟩)] 5 mB 2).2.2 5 = none :=
  flushCleanupAfterProcessing [(5, ⟨[mA], some 1⟩)] 5 ⟨[mA], some 1⟩ mB 2 rfl

/-! ### C3 — debounce semantics of the forward aggregator -/

theorem aggRun_step (dur n : Nat) (arrivals : List (Nat × Message × Nat))
    (st : AggState) (arrivals' : List (Nat × Message × Nat)) (st' : AggState)
    (h : aggStep dur arrivals st = some (arrivals', st')) :
    aggRun dur (n + 1) arrivals st = aggRun dur n arrivals' st' := by
  simp [aggRun, h]

theorem aggRun_done (dur n : Nat) (arrivals : List (Nat × Message × Nat))
    (st : AggState) (h : aggStep dur arrivals st = none) :
    aggRun dur n arrivals st = (arrivals, st) := by
  cases n <;> simp [aggRun, h]

/-- C3 (counterexample): two self-forwards 2000 ms apart — more than the
quiet period — do not produce two flushed batches when the first flush's
resolver/handler latency (here 1500 ms) extends past the second arrival:
the flush begins at 1000 with snapshot `[mA]`, the arrival at 2000 finds
the entry still present (the deletion only happens in the `finally`
clause at 2500) and is appended to the dying entry, the cleanup then
deletes it, and the second message's own timer at 3000 fires into a
missing entry and flushes nothing. The complete run emits exactly one
batch, `[mA]`, and drops `mB`. -/
theorem debounceSeparateBatches_counterexample :
    2000 - 0 > FORWARD_TIME ∧
    aggRun 1500 6 [(0, mA, 1), (2000, mB, 2)] AggState.init =
      ([], ⟨none, [], [], [(1000, [mA])]⟩) ∧
    aggStep 1500 [] ⟨none, [], [], [(1000, [mA])]⟩ = none := by
  refine ⟨by decide, by decide, by decide⟩

/-- C3 (amended): two self-forwards arriving less than the quiet period
apart flush as exactly one batch containing both messages in arrival
order, the flush rescheduled one quiet period after the second arrival.
Two self-forwards arriving more than the quiet period apart produce two
separate one-message flushed batches provided the first flush — whose
entry is deleted only by its `finally` clause, one flush duration after
it begins — completes before the second arrival; when instead the second
message arrives while the first flush is still awaiting its resolver or
handler (and that flush's cleanup runs before the second message's own
deferred flush fires), the second message is appended to the entry being
flushed after its snapshot was taken, the cleanup deletes it, and the
run emits a single batch containing only the first message. Each
conjunct exhibits the complete event-loop run and its quiescence. -/
theorem aggregatorTwoArrivals (m1 m2 : Message) (t1 t2 dur : Nat) (hle : t1 ≤ t2) :
    (t2 < t1 + FORWARD_TIME →
      aggRun dur 6 [(t1, m1, 1), (t2, m2, 2)] AggState.init =
        ([], ⟨none, [], [], [(t2 + FORWARD_TIME, [m1, m2])]⟩) ∧
      aggStep dur [] ⟨none, [], [], [(t2 + FORWARD_TIME, [m1, m2])]⟩ = none) ∧
    (t1 + FORWARD_TIME + dur < t2 →
      aggRun dur 6 [(t1, m1, 1), (t2, m2, 2)] AggState.init =
        ([], ⟨none, [], [],
          [(t1 + FORWARD_TIME, [m1]), (t2 + FORWARD_TIME, [m2])]⟩) ∧
      aggStep dur []
        ⟨none, [], [], [(t1 + FORWARD_TIME, [m1]), (t2 + FORWARD_TIME, [m2])]⟩ =
        none) ∧
    (t1 + FORWARD_TIME < t2 → t2 < t1 + FORWARD_TIME + dur →
      t1 + FORWARD_TIME + dur < t2 + FORWARD_TIME →
      aggRun dur 6 [(t1, m1, 1), (t2, m2, 2)] AggState.init =
        ([], ⟨none, [], [], [(t1 + FORWARD_TIME, [m1])]⟩) ∧
      aggStep dur [] ⟨none, [], [], [(t1 + FORWARD_TIME, [m1])]⟩ = none) := by
  have s1 : aggStep dur [(t1, m1, 1), (t2, m2, 2)] AggState.init =
      some ([(t2, m2, 2)], ⟨some ⟨[m1], some 1⟩, [(t1 + FORWARD_TIME, 1)], [], []⟩) := rfl
  refine ⟨?_, ?_, ?_⟩
  · intro hlt
    have s2 : aggStep dur [(t2, m2, 2)]
        ⟨some ⟨[m1], some 1⟩, [(t1 + FORWARD_TIME, 1)], [], []⟩ =
        some ([], ⟨some ⟨[m1, m2], some 2⟩, [(t2 + FORWARD_TIME, 2)], [], []⟩) := by
      simp only [aggStep, nextEvent, popMinBy]
      rw [if_neg (by omega : ¬(t1 + FORWARD_TIME ≤ t2))]
      simp [clearTimer]
    have s3 : aggStep dur []
        ⟨some ⟨[m1, m2], some 2⟩, [(t2 + FORWARD_TIME, 2)], [], []⟩ =
        some ([], ⟨some ⟨[m1, m2], some 2⟩, [], [t2 + FORWARD_TIME + dur],
          [(t2 + FORWARD_TIME, [m1, m2])]⟩) := by
      simp [aggStep, nextEvent, popMinBy, clearTimer]
    have s4 : aggStep dur []
        ⟨some ⟨[m1, m2], some 2⟩, [], [t2 + FORWARD_TIME + dur],
          [(t2 + FORWARD_TIME, [m1, m2])]⟩ =
        some ([], ⟨none, [], [], [(t2 + FORWARD_TIME, [m1, m2])]⟩) := rfl
    have sDone : aggStep dur [] ⟨none, [], [], [(t2 + FORWARD_TIME, [m1, m2])]⟩ =
        none := rfl
    refine ⟨?_, sDone⟩
    calc aggRun dur 6 [(t1, m1, 1), (t2, m2, 2)] AggState.init
        = aggRun dur 5 [(t2, m2, 2)]
            ⟨some ⟨[m1], some 1⟩, [(t1 + FORWARD_TIME, 1)], [], []⟩ :=
          aggRun_step dur 5 _ _ _ _ s1
      _ = aggRun dur 4 []
            ⟨some ⟨[m1, m2], some 2⟩, [(t2 + FORWARD_TIME, 2)], [], []⟩ :=
          aggRun_step dur 4 _ _ _ _ s2
      _ = aggRun dur 3 []
            ⟨some ⟨[m1, m2], some 2⟩, [], [t2 + FORWARD_TIME + dur],
              [(t2 + FORWARD_TIME, [m1, m2])]⟩ :=
          aggRun_step dur 3 _ _ _ _ s3
      _ = aggRun dur 2 [] ⟨none, [], [], [(t2 + FORWARD_TIME, [m1, m2])]⟩ :=
          aggRun_step dur 2 _ _ _ _ s4
      _ = ([], ⟨none, [], [], [(t2 + FORWARD_TIME, [m1, m2])]⟩) :=
          aggRun_done dur 2 _ _ sDone
  · intro hfar
    have s2 : aggStep dur [(t2, m2, 2)]
        ⟨some ⟨[m1], some 1⟩, [(t1 + FORWARD_TIME, 1)], [], []⟩ =
        some ([(t2, m2, 2)], ⟨some ⟨[m1], some 1⟩, [], [t1 + FORWARD_TIME + dur],
          [(t1 + FORWARD_TIME, [m1])]⟩) := by
      simp only [aggStep, nextEvent, popMinBy]
      rw [if_pos (by omega : t1 + FORWARD_TIME ≤ t2)]
      simp [clearTimer]
    have s3 : aggStep dur [(t2, m2, 2)]
        ⟨some ⟨[m1], some 1⟩, [], [t1 + FORWARD_TIME + dur],
          [(t1 + FORWARD_TIME, [m1])]⟩ =
        some ([(t2, m2, 2)], ⟨none, [], [], [(t1 + FORWARD_TIME, [m1])]⟩) := by
      simp only [aggStep, nextEvent, popMinBy]
      rw [if_pos (by omega : t1 + FORWARD_TIME + dur ≤ t2)]
    have s4 : aggStep dur [(t2, m2, 2)] ⟨none, [], [], [(t1 + FORWARD_TIME, [m1])]⟩ =
        some ([], ⟨some ⟨[m2], some 2⟩, [(t2 + FORWARD_TIME, 2)], [],
          [(t1 + FORWARD_TIME, [m1])]⟩) := rfl
    have s5 : aggStep dur []
        ⟨some ⟨[m2], some 2⟩, [(t2 + FORWARD_TIME, 2)], [],
          [(t1 + FORWARD_TIME, [m1])]⟩ =
        some ([], ⟨some ⟨[m2], some 2⟩, [], [t2 + FORWARD_TIME + dur],
          [(t1 + FORWARD_TIME, [m1]), (t2 + FORWARD_TIME, [m2])]⟩) := by
      simp [aggStep, nextEvent, popMinBy, clearTimer]
    have s6 : aggStep dur []
        ⟨some ⟨[m2], some 2⟩, [], [t2 + FORWARD_TIME + dur],
          [(t1 + FORWARD_TIME, [m1]), (t2 + FORWARD_TIME, [m2])]⟩ =
        some ([], ⟨none, [], [],
          [(t1 + FORWARD_TIME, [m1]), (t2 + FORWARD_TIME, [m2])]⟩) := rfl
    have sDone : aggStep dur []
        ⟨none, [], [], [(t1 + FORWARD_TIME, [m1]), (t2 + FORWARD_TIME, [m2])]⟩ =
        none := rfl
    refine ⟨?_, sDone⟩
    calc aggRun dur 6 [(t1, m1, 1), (t2, m2, 2)] AggState.init
        = aggRun dur 5 [(t2, m2, 2)]
            ⟨some ⟨[m1], some 1⟩, [(t1 + FORWARD_TIME, 1)], [], []⟩ :=
          aggRun_step dur 5 _ _ _ _ s1
      _ = aggRun dur 4 [(t2, m2, 2)]
            ⟨some ⟨[m1], some 1⟩, [], [t1 + FORWARD_TIME + dur],
              [(t1 + FORWARD_TIME, [m1])]⟩ :=
          aggRun_step dur 4 _ _ _ _ s2
      _ = aggRun dur 3 [(t2, m2, 2)] ⟨none, [], [], [(t1 + FORWARD_TIME, [m1])]⟩ :=
          aggRun_step dur 3 _ _ _ _ s3
      _ = aggRun dur 2 []
            ⟨some ⟨[m2], some 2⟩, [(t2 + FORWARD_TIME, 2)], [],
              [(t1 + FORWARD_TIME, [m1])]⟩ :=
          aggRun_step dur 2 _ _ _ _ s4
      _ = aggRun dur 1 []
            ⟨some ⟨[m2], some 2⟩, [], [t2 + FORWARD_TIME + dur],
              [(t1 + FORWARD_TIME, [m1]), (t2 + FORWARD_TIME, [m2])]⟩ :=
          aggRun_step dur 1 _ _ _ _ s5
      _ = aggRun dur 0 []
            ⟨none, [], [], [(t1 + FORWARD_TIME, [m1]), (t2 + FORWARD_TIME, [m2])]⟩ :=
          aggRun_step dur 0 _ _ _ _ s6
      _ = ([], ⟨none, [], [],
            [(t1 + FORWARD_TIME, [m1]), (t2 + FORWARD_TIME, [m2])]⟩) := rfl
  · intro h1 h2 h3
    have s2 : aggStep dur [(t2, m2, 2)]
        ⟨some ⟨[m1], some 1⟩, [(t1 + FORWARD_TIME, 1)], [], []⟩ =
        some ([(t2, m2, 2)], ⟨some ⟨[m1], some 1⟩, [], [t1 + FORWARD_TIME + dur],
          [(t1 + FORWARD_TIME, [m1])]⟩) := by
      simp only [aggStep, nextEvent, popMinBy]
      rw [if_pos (by omega : t1 + FORWARD_TIME ≤ t2)]
      simp [clearTimer]
    have s3 : aggStep dur [(t2, m2, 2)]
        ⟨some ⟨[m1], some 1⟩, [], [t1 + FORWARD_TIME + dur],
          [(t1 + FORWARD_TIME, [m1])]⟩ =
        some ([], ⟨some ⟨[m1, m2], some 2⟩, [(t2 + FORWARD_TIME, 2)],
          [t1 + FORWARD_TIME + dur], [(t1 + FORWARD_TIME, [m1])]⟩) := by
      simp only [aggStep, nextEvent, popMinBy]
      rw [if_neg (by omega : ¬(t1 + FORWARD_TIME + dur ≤ t2))]
      simp [clearTimer]
    have s4 : aggStep dur []
        ⟨some ⟨[m1, m2], some 2⟩, [(t2 + FORWARD_TIME, 2)],
          [t1 + FORWARD_TIME + dur], [(t1 + FORWARD_TIME, [m1])]⟩ =
        some ([], ⟨none, [(t2 + FORWARD_TIME, 2)], [],
          [(t1 + FORWARD_TIME, [m1])]⟩) := by
      simp only [aggStep, nextEvent, popMinBy]
      rw [if_pos (by omega : t1 + FORWARD_TIME + dur ≤ t2 + FORWARD_TIME)]
    have s5 : aggStep dur []
        ⟨none, [(t2 + FORWARD_TIME, 2)], [], [(t1 + FORWARD_TIME, [m1])]⟩ =
        some ([], ⟨none, [], [], [(t1 + FORWARD_TIME, [m1])]⟩) := rfl
    have sDone : aggStep dur [] ⟨none, [], [], [(t1 + FORWARD_TIME, [m1])]⟩ =
        none := rfl
    refine ⟨?_, sDone⟩
    calc aggRun dur 6 [(t1, m1, 1), (t2, m2, 2)] AggState.init
        = aggRun dur 5 [(t2, m2, 2)]
            ⟨some ⟨[m1], some 1⟩, [(t1 + FORWARD_TIME, 1)], [], []⟩ :=
          aggRun_step dur 5 _ _ _ _ s1
      _ = aggRun dur 4 [(t2, m2, 2)]
            ⟨some ⟨[m1], some 1⟩, [], [t1 + FORWARD_TIME + dur],
              [(t1 + FORWARD_TIME, [m1])]⟩ :=
          aggRun_step dur 4 _ _ _ _ s2
      _ = aggRun dur 3 []
            ⟨some ⟨[m1, m2], some 2⟩, [(t2 + FORWARD_TIME, 2)],
              [t1 + FORWARD_TIME + dur], [(t1 + FORWARD_TIME, [m1])]⟩ :=
          aggRun_step dur 3 _ _ _ _ s3
      _ = aggRun dur 2 []
            ⟨none, [(t2 + FORWARD_TIME, 2)], [], [(t1 + FORWARD_TIME, [m1])]⟩ :=
          aggRun_step dur 2 _ _ _ _ s4
      _ = aggRun dur 1 [] ⟨none, [], [], [(t1 + FORWARD_TIME, [m1])]⟩ :=
          aggRun_step dur 1 _ _ _ _ s5
      _ = ([], ⟨none, [], [], [(t1 + FORWARD_TIME, [m1])]⟩) :=
          aggRun_done dur 1 _ _ sDone

/-- C3 (witness): the amended statement at concrete runs with flush
duration 100 ms: arrivals 500 ms apart give one batch with both messages
flushed at 1500; arrivals 3000 ms apart (the first flush completing at
1100, before the second arrival) give two separate batches. -/
theorem aggregatorTwoArrivals_witness :
    aggRun 100 6 [(0, mA, 1), (500, mB, 2)] AggState.init =
      ([], ⟨none, [], [], [(500 + FORWARD_TIME, [mA, mB])]⟩) ∧
    aggRun 100 6 [(0, mA, 1), (3000, mB, 2)] AggState.init =
      ([], ⟨none, [], [],
        [(0 + FORWARD_TIME, [mA]), (3000 + FORWARD_TIME, [mB])]⟩) :=
  ⟨((aggregatorTwoArrivals mA mB 0 500 100 (by omega)).1 (by decide)).1,
   ((aggregatorTwoArrivals mA mB 0 3000 100 (by omega)).2.1 (by decide)).1⟩

/-! ### C8 / C9 — enrichment idempotence and frame -/

theorem resolvePlainBlock_idem (tok : String) (gf : Option String → String)
    (ob : Option MediaBlock) :
    resolvePlainBlock tok gf (resolvePlainBlock tok gf ob) = resolvePlainBlock tok gf ob := by
  cases ob with
  | none => rfl
  | some b =>
    by_cases hf : truthyStr b.file_id
    · simp [resolvePlainBlock, hf]
    · simp [resolvePlainBlock, hf]

theorem resolveThumbBlock_idem (tok : String) (gf : Option String → String)
    (ob ob' : Option MediaBlock)
    (h : resolveThumbBlock tok gf ob = Except.ok ob') :
    resolveThumbBlock tok gf ob' = Except.ok ob' := by
  cases ob with
  | none =>
    simp [resolveThumbBlock] at h
    subst h
    rfl
  | some b =>
    by_cases hf : truthyStr b.file_id
    · cases hth : b.thumb with
      | some t =>
        simp [resolveThumbBlock, hf, hth] at h
        subst h
        simp [resolveThumbBlock, hf]
      | none =>
        cases htn : b.thumbnail with
        | some t' => simp [resolveThumbBlock, hf, hth, htn] at h
        | none =>
          simp [resolveThumbBlock, hf, hth, htn] at h
          subst h
          simp [resolveThumbBlock, hf, hth, htn]
    · simp [resolveThumbBlock, hf] at h
      subst h
      simp [resolveThumbBlock, hf]

theorem resolveNoteBlock_idem (tok : String) (gf : Option String → String)
    (ob ob' : Option MediaBlock)
    (h : resolveNoteBlock tok gf ob = Except.ok ob') :
    resolveNoteBlock tok gf ob' = Except.ok ob' := by
  cases ob with
  | none =>
    simp [resolveNoteBlock] at h
    subst h
    rfl
  | some b =>
    cases hth : b.thumb with
    | some t =>
      simp [resolveNoteBlock, hth] at h
      subst h
      simp [resolveNoteBlock]
    | none =>
      cases htn : b.thumbnail with
      | some t' => simp [resolveNoteBlock, hth, htn] at h
      | none =>
        simp [resolveNoteBlock, hth, htn] at h
        subst h
        simp [resolveNoteBlock, hth, htn]

theorem resolvePhotoSize_idem (tok : String) (gf : Option String → String)
    (p : PhotoSize) :
    resolvePhotoSize tok gf (resolvePhotoSize tok gf p) = resolvePhotoSize tok gf p := by
  by_cases hc : (positiveSize p.file_size && truthyStr p.file_id) = true
  · simp [resolvePhotoSize, hc]
  · simp [resolvePhotoSize, hc]

theorem resolvePhoto_idem (tok : String) (gf : Option String → String)
    (op : Option (List PhotoSize)) :
    resolvePhoto tok gf (resolvePhoto tok gf op) = resolvePhoto tok gf op := by
  cases op with
  | none => rfl
  | some photos =>
    simp only [resolvePhoto, List.map_map, Option.some.injEq]
    apply List.map_congr_left
    intro p _
    exact resolvePhotoSize_idem tok gf p

/-- C8: enrichment is idempotent — with the file-lookup collaborator a
fixed function of the file identifier, a message that enriched to `m'`
enriches again to exactly `m'` (all resolved `file_path`/`url` values
reproduced), and every resolved file's URL is built exactly as
`https://` + the platform file host + `/file/bot` + token + `/` + the
resolved file path. -/
theorem extendMessage_idempotent (tok : String) (gf : Option String → String)
    (m m' : Message) (h : extendMessage tok gf m = Except.ok m') :
    extendMessage tok gf m' = Except.ok m' ∧
    ∀ fid, getTelegramFile tok gf fid =
      { file_path := gf fid
        url := "https://" ++ TELEGRAM_HOST ++ "/file/bot" ++ tok ++ "/" ++ gf fid } := by
  refine ⟨?_, fun fid => rfl⟩
  unfold extendMessage at h
  cases hd : resolveThumbBlock tok gf m.document with
  | error e => rw [hd] at h; exact absurd h (by simp)
  | ok document =>
    rw [hd] at h
    cases hv : resolveThumbBlock tok gf m.video with
    | error e => rw [hv] at h; exact absurd h (by simp)
    | ok video =>
      rw [hv] at h
      cases hn : resolveNoteBlock tok gf m.video_note with
      | error e => rw [hn] at h; exact absurd h (by simp)
      | ok video_note =>
        rw [hn] at h
        injection h with h1
        subst h1
        unfold extendMessage
        dsimp only
        rw [resolveThumbBlock_idem tok gf _ _ hd, resolveThumbBlock_idem tok gf _ _ hv,
            resolveNoteBlock_idem tok gf _ _ hn]
        dsimp only
        rw [resolvePlainBlock_idem, resolvePlainBlock_idem, resolvePhoto_idem]

/-- C8 (witness): the statement at a concrete voice message — the second
enrichment reproduces the first one's `file` block, and the URL of a
concrete resolution has the required shape. -/
theorem extendMessage_idempotent_witness :
    extendMessage "TOK" (fun _ => "p")
      { voice := some { file_id := some "v1",
                        file := some { file_path := "p",
                                       url := "https://api.telegram.org/file/botTOK/p" } } } =
      Except.ok { voice := some { file_id := some "v1",
                                  file := some { file_path := "p",
                                                 url := "https://api.telegram.org/file/botTOK/p" } } } ∧
    getTelegramFile "TOK" (fun _ => "p") (some "x") =
      { file_path := "p", url := "https://" ++ TELEGRAM_HOST ++ "/file/botTOK/p" } :=
  ⟨(extendMessage_idempotent "TOK" (fun _ => "p")
      { voice := some { file_id := some "v1" } } _ rfl).1,
   (extendMessage_idempotent "TOK" (fun _ => "p")
      { voice := some { file_id := some "v1" } } _ rfl).2 (some "x")⟩

/-- C9: enrichment only touches the six attachment blocks — every other
field of the message is returned unchanged; a message with none of the
blocks is returned entirely unchanged; the photo array is rebuilt by an
order-preserving map in which any variant without a positive size hint
and a truthy file identifier is left exactly as it was. -/
theorem extendMessage_frame (tok : String) (gf : Option String → String)
    (m m' : Message) (h : extendMessage tok gf m = Except.ok m') :
    m'.chat = m.chat ∧ m'.from_ = m.from_ ∧ m'.text = m.text ∧ m'.type = m.type ∧
    m'.contact = m.contact ∧ m'.reply_to_message = m.reply_to_message ∧
    m'.entities = m.entities ∧ m'.forward_from = m.forward_from ∧
    m'.forward_from_chat = m.forward_from_chat ∧
    ((m.voice = none ∧ m.document = none ∧ m.video = none ∧ m.audio = none ∧
      m.video_note = none ∧ m.photo = none) → m' = m) ∧
    (∀ photos, m.photo = some photos →
      m'.photo = some (photos.map (resolvePhotoSize tok gf))) ∧
    (∀ p : PhotoSize, (positiveSize p.file_size && truthyStr p.file_id) = false →
      resolvePhotoSize tok gf p = p) := by
  obtain ⟨c, f, tx, ty, co, rp, en, ff, ffc, vo, doc, vid, au, vn, ph⟩ := m
  unfold extendMessage at h
  cases hd : resolveThumbBlock tok gf doc with
  | error e => rw [hd] at h; exact absurd h (by simp)
  | ok document =>
    rw [hd] at h
    cases hv : resolveThumbBlock tok gf vid with
    | error e => rw [hv] at h; exact absurd h (by simp)
    | ok video =>
      rw [hv] at h
      cases hn : resolveNoteBlock tok gf vn with
      | error e => rw [hn] at h; exact absurd h (by simp)
      | ok video_note =>
        rw [hn] at h
        injection h with h1
        subst h1
        refine ⟨rfl, rfl, rfl, rfl, rfl, rfl, rfl, rfl, rfl, ?_, ?_, ?_⟩
        · rintro ⟨hv0, hd0, hvv0, ha0, hn0, hp0⟩
          subst hv0; subst hd0; subst hvv0; subst ha0; subst hn0; subst hp0
          simp [resolveThumbBlock] at hd
          simp [resolveThumbBlock] at hv
          simp [resolveNoteBlock] at hn
          subst hd; subst hv; subst hn
          simp [resolvePlainBlock, resolvePhoto]
        · intro photos hph
          subst hph
          simp [resolvePhoto]
        · intro p hp
          simp [resolvePhotoSize, hp]

/-- C9 (witness): the statement at a concrete two-variant photo message:
the enriched photo array is the order-preserving map over the original
variants, the unqualified second variant unchanged. -/
theorem extendMessage_frame_witness :
    ({ photo := some [{ file_id := some "a", file_size := some 2,
                        file := some { file_path := "p",
                                       url := "https://api.telegram.org/file/botTOK/p" } },
         ({} : PhotoSize)] } : Message).photo =
      some (List.map (resolvePhotoSize "TOK" (fun _ => "p"))
        [{ file_id := some "a", file_size := some 2 }, ({} : PhotoSize)]) :=
  (extendMessage_frame "TOK" (fun _ => "p")
      { photo := some [{ file_id := some "a", file_size := some 2 }, {}] } _
      rfl).2.2.2.2.2.2.2.2.2.2.1
    [{ file_id := some "a", file_size := some 2 }, {}] rfl

end TelegramBotExpress
